import Mathlib

/-!
Verification of the multi-backend conversation session model of the
ManuscriptEditor application (src/manuscripteditorv1.py).

The Python script is a Streamlit form: all logic lives in three event
handlers and one export block, shallowly embedded here.

* `get_ai_response` (lines 166-191) — the Backend Adapter; provider calls
  are abstracted by an environment `env : ApiRequest → ProviderResult`
  mapping each issued request either to a returned text or to a raised
  exception message.
* the "Get Editorial Feedback" handler (lines 197-225) — `runButtonHandler`,
  the StartSession operation of the spec.
* the follow-up "Send" handler (lines 262-280 / 310-328) — `sendHandler`,
  the ContinueSession operation of the spec.  An empty follow-up is
  rejected with a warning; a backend id absent from the history dict
  raises a `KeyError` before any mutation; both are modelled as
  `FollowUpError` results leaving the state unchanged.
* the DOCX export block (lines 333-361) — `exportDoc`, Render of the spec,
  modelled at the level of the sequence of headings and paragraphs added
  to the document; the docx library's byte serialization of that element
  sequence is external to the repository.

`st.session_state.conversation_history` is a Python dict from model name
to `{"messages": [...], "system_prompt": ...}`; it is modelled as an
insertion-ordered association list (`SessionMap`) with dict semantics
(`dictSet` updates in place, appends fresh keys at the end).
-/

/-- Python's `str.startswith` on explicit character lists. -/
def startsWithList : List Char → List Char → Bool
  | _, [] => true
  | [], _ :: _ => false
  | c :: cs, d :: ds => c == d && startsWithList cs ds

/-- Python's `str.startswith(p)`. -/
def pyStartsWith (s p : String) : Bool := startsWithList s.data p.data

/-- Python's `str.strip()`: drop whitespace from both ends. -/
def pyStrip (s : String) : String :=
  String.mk (((s.data.dropWhile Char.isWhitespace).reverse.dropWhile
    Char.isWhitespace).reverse)

/-- One entry of a `messages` list: a Python dict with `role` and `content`
keys.  `content` is `Option String` because the adapter can return Python's
`None` (for a model in neither provider list), which the caller stores
verbatim. -/
structure Message where
  role : String
  content : Option String
deriving DecidableEq, Repr

/-- Per-model value of `st.session_state.conversation_history`
(lines 215-218): the `messages` list and the fixed `system_prompt`. -/
structure BackendSession where
  messages : List Message
  system_prompt : String
deriving DecidableEq, Repr

/-- `st.session_state.conversation_history`: a Python dict, modelled as an
insertion-ordered association list. -/
abbrev SessionMap : Type := List (String × BackendSession)

/-- Python dict lookup `d[k]` (first, and only, binding of `k`). -/
def dictGet : SessionMap → String → Option BackendSession
  | [], _ => none
  | (k', v) :: rest, k => if k' == k then some v else dictGet rest k

/-- Python dict assignment `d[k] = v`: updates an existing key in place,
appends a fresh key at the end — insertion order preserved. -/
def dictSet : SessionMap → String → BackendSession → SessionMap
  | [], k, v => [(k, v)]
  | (k', v') :: rest, k, v =>
      if k' == k then (k, v) :: rest else (k', v') :: dictSet rest k v

/-- `openai_models` (line 105). -/
def openai_models : List String := ["gpt-4o", "gpt-4.1"]

/-- `anthropic_models` (line 106). -/
def anthropic_models : List String := ["claude-sonnet-4-20250514"]

/-- Outcome of one black-box provider call: either the text of the one
assistant message read back, or the message of a raised exception
(transport, auth, quota, malformed response, ...). -/
inductive ProviderResult where
  | ok (text : String)
  | exn (msg : String)
deriving DecidableEq, Repr

/-- The request `get_ai_response` hands to the provider SDK: Convention A
(lines 169-173, whole message list with a prepended system entry) or
Convention B (lines 182-188, separate system parameter, filtered
messages, explicit `max_tokens`). -/
inductive ApiRequest where
  | openaiReq (model : String) (messages : List Message) (temperature : ℚ)
  | anthropicReq (model : String) (max_tokens : Nat) (temperature : ℚ)
      (system : String) (messages : List Message)
deriving DecidableEq, Repr

/-- The model name a request is addressed to. -/
def reqModel : ApiRequest → String
  | ApiRequest.openaiReq m _ _ => m
  | ApiRequest.anthropicReq m _ _ _ _ => m

/-- The request `get_ai_response model messages system_prompt` issues:
`if model in openai_models` build Convention A, `elif model in
anthropic_models` build Convention B (filtering out system-role entries),
else no call is made at all. -/
def adapterRequest (model : String) (messages : List Message)
    (system_prompt : String) : Option ApiRequest :=
  if openai_models.contains model then
    some (ApiRequest.openaiReq model
      (Message.mk "system" (some system_prompt) :: messages) (7/10))
  else if anthropic_models.contains model then
    some (ApiRequest.anthropicReq model 4096 (7/10) system_prompt
      (messages.filter (fun x => x.role != "system")))
  else none

/-- `get_ai_response` (lines 166-191).  A successful call returns the
provider text stripped of surrounding whitespace; any exception raised by
the provider call is caught and converted to `"❌ Error: " ++ msg`;
a model in neither list falls through the if/elif and returns `None`. -/
def get_ai_response (env : ApiRequest → ProviderResult) (model : String)
    (messages : List Message) (system_prompt : String) : Option String :=
  match adapterRequest model messages system_prompt with
  | none => none
  | some req =>
    match env req with
    | ProviderResult.ok t => some (pyStrip t)
    | ProviderResult.exn e => some ("❌ Error: " ++ e)

/-- `system_prompt` (line 207), built once per StartSession from the
persona name. -/
def systemPromptFor (editor_name : String) : String :=
  "You are a brilliant fiction editor named " ++ editor_name ++
  ". Provide constructive, detailed feedback on the user's manuscript. Be specific, actionable, and encouraging while identifying areas for improvement."

/-- `initial_message` (line 208): the fixed layout combining manuscript
and feedback request. -/
def initialMessage (manuscript_input editor_prompt : String) : String :=
  "Manuscript:\n" ++ manuscript_input ++ "\n\nFeedback Request:\n" ++ editor_prompt

/-- The fresh two-turn session the StartSession loop body builds for one
model (lines 214-221): the initial user turn, then the adapter's result
appended as the assistant turn. -/
def startSessionFor (env : ApiRequest → ProviderResult) (sp im model : String) :
    BackendSession :=
  BackendSession.mk
    [Message.mk "user" (some im),
     Message.mk "assistant" (get_ai_response env model [Message.mk "user" (some im)] sp)]
    sp

/-- The `for model in selected_models` loop of the run-button handler
(lines 210-221). -/
def startLoop (env : ApiRequest → ProviderResult) (sp im : String) :
    SessionMap → List String → SessionMap
  | hist, [] => hist
  | hist, model :: rest =>
      startLoop env sp im (dictSet hist model (startSessionFor env sp im model)) rest

/-- The run-button handler (lines 197-225), the spec's StartSession: if
either text input is empty an error is shown and nothing changes;
otherwise the history dict is replaced by `{}` (line 202) and rebuilt by
the per-model loop. -/
def runButtonHandler (env : ApiRequest → ProviderResult)
    (manuscript_input editor_prompt editor_name : String)
    (selected_models : List String) (hist : SessionMap) : SessionMap :=
  if manuscript_input = "" ∨ editor_prompt = "" then hist
  else startLoop env (systemPromptFor editor_name)
    (initialMessage manuscript_input editor_prompt) [] selected_models

/-- Rejection outcomes of the follow-up Send handler: an empty (or
whitespace-only) follow-up draws a warning (line 280); a model absent
from the history dict raises `KeyError` at line 266 before any append. -/
inductive FollowUpError where
  | emptyFollowUp
  | unknownBackend
deriving DecidableEq, Repr

/-- The follow-up Send handler (lines 262-280), the spec's
ContinueSession: guard `if follow_up.strip():`, then append the user
turn, call the adapter with the full history, append the assistant
turn. -/
def sendHandler (env : ApiRequest → ProviderResult) (hist : SessionMap)
    (model follow_up : String) : Except FollowUpError SessionMap :=
  if pyStrip follow_up = "" then Except.error FollowUpError.emptyFollowUp
  else
    match dictGet hist model with
    | none => Except.error FollowUpError.unknownBackend
    | some sess =>
        Except.ok (dictSet hist model
          (BackendSession.mk
            ((sess.messages ++ [Message.mk "user" (some follow_up)]) ++
             [Message.mk "assistant"
               (get_ai_response env model
                 (sess.messages ++ [Message.mk "user" (some follow_up)])
                 sess.system_prompt)])
            sess.system_prompt))

/-- The session map after a Send click: unchanged when the handler
rejects. -/
def sendHandlerState (env : ApiRequest → ProviderResult) (hist : SessionMap)
    (model follow_up : String) : SessionMap :=
  match sendHandler env hist model follow_up with
  | Except.ok hist' => hist'
  | Except.error _ => hist

/-- Session maps reachable through the app's handlers: the initial empty
dict (line 14), any run-button click, any follow-up Send click, and the
"Start New Session" reset (line 374). -/
inductive Reachable : SessionMap → Prop where
  | empty : Reachable []
  | start (env : ApiRequest → ProviderResult) (m p n : String)
      (ids : List String) (s : SessionMap) :
      Reachable s → Reachable (runButtonHandler env m p n ids s)
  | followUp (env : ApiRequest → ProviderResult) (model fu : String)
      (s : SessionMap) :
      Reachable s → Reachable (sendHandlerState env s model fu)
  | newSession (s : SessionMap) : Reachable s → Reachable []

/-- The role expected to follow `r` in a strictly alternating
user/assistant transcript. -/
def otherRole (r : String) : String :=
  if r == "user" then "assistant" else "user"

/-- `altFrom r msgs` holds when the roles of `msgs` strictly alternate
starting with `r`. -/
def altFrom (r : String) : List Message → Bool
  | [] => true
  | m :: rest => (m.role == r) && altFrom (otherRole r) rest

/-- The role expected right after traversing `msgs`, starting from
expected role `r`. -/
def endRole (r : String) : List Message → String
  | [] => r
  | _ :: rest => endRole (otherRole r) rest

/-- One element added to the export document: `doc.add_heading(text, level)`
or `doc.add_paragraph(text)`. -/
inductive DocElem where
  | heading (text : String) (level : Nat)
  | para (text : String)
deriving DecidableEq, Repr

/-- The fixed front matter of the export (lines 334-341). -/
def docHeader (editor_name editor_prompt manuscript_input : String) :
    List DocElem :=
  [DocElem.heading "AI Manuscript Editor - Full Conversation" 0,
   DocElem.para ("Editor Persona: " ++ editor_name),
   DocElem.para ("Original Feedback Request: " ++ editor_prompt),
   DocElem.para "",
   DocElem.heading "Original Manuscript Excerpt" 1,
   DocElem.para manuscript_input,
   DocElem.para ""]

/-- The elements the export loop body (lines 348-356) adds for one message
at index `j`, before the unconditional trailing empty paragraph.  A user
turn gets a heading (`Original Request` at index 0, else `Follow-up
Question`) and its content; an assistant turn whose content does not carry
the error marker gets a `Response` heading and its content; an error-marked
assistant turn adds nothing.  `content` being Python `None` makes
`content.startswith` raise: modelled as `none`.  `doc.add_paragraph(None)`
adds an empty paragraph, like `add_paragraph("")`. -/
def renderTurn (j : Nat) (m : Message) : Option (List DocElem) :=
  if m.role == "user" then
    some [DocElem.heading
            (if j == 0 then "Original Request" else "Follow-up Question") 2,
          DocElem.para (m.content.getD "")]
  else if m.role == "assistant" then
    match m.content with
    | none => none
    | some c =>
        some (if pyStartsWith c "❌ Error:" then []
              else [DocElem.heading "Response" 2, DocElem.para c])
  else some []

/-- The export loop over one model's messages (lines 347-357), including
the `doc.add_paragraph('')` issued after every message. -/
def renderMsgs (j : Nat) : List Message → Option (List DocElem)
  | [] => some []
  | m :: rest =>
    match renderTurn j m with
    | none => none
    | some es =>
      match renderMsgs (j + 1) rest with
      | none => none
      | some tail => some (es ++ [DocElem.para ""] ++ tail)

/-- The `for model in selected_models` export loop (lines 343-357): a model
absent from the history dict is skipped, a present one contributes a
`Conversation with {model}` heading followed by its rendered messages. -/
def renderSections (hist : SessionMap) : List String → Option (List DocElem)
  | [] => some []
  | model :: rest =>
    match dictGet hist model with
    | none => renderSections hist rest
    | some sess =>
      match renderMsgs 0 sess.messages with
      | none => none
      | some body =>
        match renderSections hist rest with
        | none => none
        | some tail =>
            some ((DocElem.heading ("Conversation with " ++ model) 1 :: body) ++ tail)

/-- The whole DOCX export block (lines 333-361), Render of the spec,
modelled as the ordered sequence of headings and paragraphs added to the
document (`none` when the block raises).  The docx library serializes this
element sequence into the downloaded byte buffer. -/
def exportDoc (editor_name editor_prompt manuscript_input : String)
    (selected_models : List String) (hist : SessionMap) :
    Option (List DocElem) :=
  match renderSections hist selected_models with
  | none => none
  | some sections =>
      some (docHeader editor_name editor_prompt manuscript_input ++ sections)

/-- The backend-section tag of one document element: the text of a level-1
heading that announces a per-model conversation section. -/
def sectionTag : DocElem → List String
  | DocElem.heading t lvl =>
      if lvl == 1 && startsWithList t.data ("Conversation with ").data
      then [t] else []
  | DocElem.para _ => []

/-- The per-backend section headings of a rendered document, in order. -/
def modelSections (d : List DocElem) : List String := d.flatMap sectionTag

/-- The turn-label tag of one document element: the text of a level-2
heading. -/
def turnTag : DocElem → List String
  | DocElem.heading t lvl => if lvl == 2 then [t] else []
  | DocElem.para _ => []

/-- The turn labels of a rendered section, in order. -/
def turnHeadings (d : List DocElem) : List String := d.flatMap turnTag

/-- Whether an assistant turn's content carries the error marker. -/
def errMarked : Option String → Bool
  | some c => pyStartsWith c "❌ Error:"
  | none => false

/-- Modelled from the spec (amended §4.3 labelling rules): the expected
turn labels of one backend's transcript — `Original Request` for the turn
at index 0 when it is a user turn, `Follow-up Question` for later user
turns, `Response` for assistant turns without the error marker, no label
for error-marked assistant turns or other roles. -/
def labelsSpec (j : Nat) : List Message → List String
  | [] => []
  | m :: rest =>
    (if m.role == "user" then
       [if j == 0 then "Original Request" else "Follow-up Question"]
     else if m.role == "assistant" && !(errMarked m.content) then ["Response"]
     else []) ++ labelsSpec (j + 1) rest


/-! ### Concrete fixtures used by witnesses and counterexamples -/

/-- A provider environment where every call succeeds with `"Fine."`. -/
def envOk : ApiRequest → ProviderResult := fun _ => ProviderResult.ok "Fine."

/-- A provider environment where every call raises `"boom"`. -/
def envBoom : ApiRequest → ProviderResult := fun _ => ProviderResult.exn "boom"

/-- A provider environment where every call succeeds with `" hi "`. -/
def envPad : ApiRequest → ProviderResult := fun _ => ProviderResult.ok " hi "

/-- A provider environment where calls addressed to `gpt-4o` raise and all
others succeed. -/
def envFailGpt4o : ApiRequest → ProviderResult := fun r =>
  if reqModel r == "gpt-4o" then ProviderResult.exn "boom"
  else ProviderResult.ok "Fine."

/-- A stored session whose assistant turn carries the error marker. -/
def sessErr : BackendSession :=
  BackendSession.mk
    [Message.mk "user" (some "q"),
     Message.mk "assistant" (some "❌ Error: boom")] "sp"

/-- A stored session whose assistant turn is a successful critique. -/
def sessOk : BackendSession :=
  BackendSession.mk
    [Message.mk "user" (some "q"),
     Message.mk "assistant" (some "All good.")] "sp"

/-- A session history holding two backends, inserted `gpt-4o` first. -/
def histCE : SessionMap :=
  [("gpt-4o", sessErr), ("claude-sonnet-4-20250514", sessOk)]

/-! ### Dictionary lemmas -/

theorem dictGet_dictSet_self (d : SessionMap) (k : String) (v : BackendSession) :
    dictGet (dictSet d k v) k = some v := by
  induction d with
  | nil => simp [dictSet, dictGet]
  | cons e rest ih =>
    obtain ⟨k', v'⟩ := e
    by_cases h : k' = k
    · subst h
      simp [dictSet, dictGet]
    · have hb : (k' == k) = false := by
        simpa using h
      simp [dictSet, dictGet, hb, ih]

theorem dictGet_dictSet_ne (d : SessionMap) (k y : String) (v : BackendSession)
    (h : k ≠ y) : dictGet (dictSet d k v) y = dictGet d y := by
  induction d with
  | nil =>
    have hb : (k == y) = false := by simpa using h
    simp [dictSet, dictGet, hb]
  | cons e rest ih =>
    obtain ⟨k', v'⟩ := e
    by_cases hk : k' = k
    · subst hk
      have hb : (k' == y) = false := by simpa using h
      simp [dictSet, dictGet, hb]
    · have hb : (k' == k) = false := by simpa using hk
      by_cases hy : k' = y
      · subst hy
        simp [dictSet, dictGet, hb]
      · have hb' : (k' == y) = false := by simpa using hy
        simp [dictSet, dictGet, hb, hb', ih]

theorem dictGet_mem {d : SessionMap} {k : String} {v : BackendSession}
    (h : dictGet d k = some v) : (k, v) ∈ d := by
  induction d with
  | nil => simp [dictGet] at h
  | cons e rest ih =>
    obtain ⟨k', v'⟩ := e
    by_cases hk : k' = k
    · subst hk
      simp [dictGet] at h
      subst h
      exact List.mem_cons_self _ _
    · have hb : (k' == k) = false := by simpa using hk
      simp [dictGet, hb] at h
      exact List.mem_cons_of_mem _ (ih h)

/-! ### StartSession loop characterization -/

theorem startLoop_get (env : ApiRequest → ProviderResult) (sp im x : String) :
    ∀ (ids : List String) (hist : SessionMap),
      dictGet (startLoop env sp im hist ids) x =
        if x ∈ ids then some (startSessionFor env sp im x)
        else dictGet hist x := by
  intro ids
  induction ids with
  | nil => intro hist; simp [startLoop]
  | cons y rest ih =>
    intro hist
    show dictGet (startLoop env sp im (dictSet hist y (startSessionFor env sp im y)) rest) x = _
    rw [ih]
    by_cases hr : x ∈ rest
    · simp [hr]
    · by_cases hxy : y = x
      · subst hxy
        simp [hr, dictGet_dictSet_self]
      · rw [dictGet_dictSet_ne _ _ _ _ hxy]
        have hx : x ∉ y :: rest := by
          intro hmem
          rcases List.mem_cons.mp hmem with h1 | h1
          · exact hxy h1.symm
          · exact hr h1
        simp [hr, hx]

theorem adapterRequest_model {model : String} {messages : List Message}
    {sp : String} {req : ApiRequest}
    (h : adapterRequest model messages sp = some req) : reqModel req = model := by
  unfold adapterRequest at h
  split at h
  · cases h
    rfl
  · split at h
    · cases h
      rfl
    · cases h

theorem get_ai_response_congr {env1 env2 : ApiRequest → ProviderResult}
    {model : String} (messages : List Message) (sp : String)
    (h : ∀ r, reqModel r = model → env1 r = env2 r) :
    get_ai_response env1 model messages sp = get_ai_response env2 model messages sp := by
  unfold get_ai_response
  cases hreq : adapterRequest model messages sp with
  | none => rfl
  | some req =>
    dsimp only
    rw [h req (adapterRequest_model hreq)]

/-! ### Alternation lemmas -/

theorem altFrom_append (r : String) (xs ys : List Message) :
    altFrom r (xs ++ ys) = (altFrom r xs && altFrom (endRole r xs) ys) := by
  induction xs generalizing r with
  | nil => simp [altFrom, endRole]
  | cons m rest ih =>
    simp [altFrom, endRole, ih, Bool.and_assoc]

theorem endRole_append (r : String) (xs ys : List Message) :
    endRole r (xs ++ ys) = endRole (endRole r xs) ys := by
  induction xs generalizing r with
  | nil => simp [endRole]
  | cons m rest ih => simp [endRole, ih]

/-- The invariant maintained for every stored session: roles strictly
alternate starting with user, and the transcript ends expecting a user
turn again (even length: it ends in an assistant turn when non-empty). -/
def sessionInv (sess : BackendSession) : Prop :=
  altFrom "user" sess.messages = true ∧ endRole "user" sess.messages = "user"

theorem startSessionFor_inv (env : ApiRequest → ProviderResult)
    (sp im model : String) : sessionInv (startSessionFor env sp im model) := by
  constructor
  · simp [startSessionFor, altFrom, otherRole]
  · simp [startSessionFor, endRole, otherRole]

theorem sessionInv_extend {sess : BackendSession} (h : sessionInv sess)
    (fu : String) (resp : Option String) :
    sessionInv (BackendSession.mk
      ((sess.messages ++ [Message.mk "user" (some fu)]) ++
       [Message.mk "assistant" resp]) sess.system_prompt) := by
  obtain ⟨h1, h2⟩ := h
  have hx : (sess.messages ++ [Message.mk "user" (some fu)]) ++
      [Message.mk "assistant" resp] =
      sess.messages ++ [Message.mk "user" (some fu), Message.mk "assistant" resp] := by
    simp
  constructor
  · show altFrom "user" _ = true
    rw [hx, altFrom_append, h1, h2]
    simp [altFrom, otherRole]
  · show endRole "user" _ = "user"
    rw [hx, endRole_append, h2]
    simp [endRole, otherRole]

theorem reachable_inv {s : SessionMap} (h : Reachable s) :
    ∀ model sess, dictGet s model = some sess → sessionInv sess := by
  induction h with
  | empty => intro model sess hg; simp [dictGet] at hg
  | start env m p n ids s hs ih =>
    intro model sess hg
    unfold runButtonHandler at hg
    by_cases hv : m = "" ∨ p = ""
    · rw [if_pos hv] at hg
      exact ih model sess hg
    · rw [if_neg hv, startLoop_get] at hg
      by_cases hc : model ∈ ids
      · rw [if_pos hc] at hg
        cases hg
        exact startSessionFor_inv _ _ _ _
      · rw [if_neg hc] at hg
        simp [dictGet] at hg
  | followUp env model fu s hs ih =>
    intro y sess hg
    unfold sendHandlerState sendHandler at hg
    by_cases he : pyStrip fu = ""
    · rw [if_pos he] at hg
      exact ih y sess hg
    · rw [if_neg he] at hg
      cases hold : dictGet s model with
      | none =>
        rw [hold] at hg
        exact ih y sess hg
      | some old =>
        rw [hold] at hg
        simp only at hg
        by_cases hy : model = y
        · subst hy
          rw [dictGet_dictSet_self] at hg
          cases hg
          exact sessionInv_extend (ih _ _ hold) _ _
        · rw [dictGet_dictSet_ne _ _ _ _ hy] at hg
          exact ih y sess hg
  | newSession s hs ih =>
    intro model sess hg
    simp [dictGet] at hg

/-! ### Export lemmas -/

theorem startsWithList_append (xs ys : List Char) :
    startsWithList (xs ++ ys) xs = true := by
  induction xs with
  | nil =>
    cases ys with
    | nil => rfl
    | cons c cs => rfl
  | cons c cs ih => simp [startsWithList, ih]

theorem pyStartsWith_append (p s : String) : pyStartsWith (p ++ s) p = true := by
  show startsWithList (p ++ s).data p.data = true
  have hd : (p ++ s).data = p.data ++ s.data := rfl
  rw [hd]
  exact startsWithList_append _ _

theorem modelSections_append (xs ys : List DocElem) :
    modelSections (xs ++ ys) = modelSections xs ++ modelSections ys := by
  simp [modelSections]

theorem turnHeadings_append (xs ys : List DocElem) :
    turnHeadings (xs ++ ys) = turnHeadings xs ++ turnHeadings ys := by
  simp [turnHeadings]

theorem renderTurn_sections {j : Nat} {m : Message} {es : List DocElem}
    (h : renderTurn j m = some es) : modelSections es = [] := by
  unfold renderTurn at h
  split at h
  · cases h
    simp [modelSections, sectionTag]
  · split at h
    · cases hc : m.content with
      | none => rw [hc] at h; cases h
      | some c =>
        rw [hc] at h
        cases h
        by_cases he : pyStartsWith c "❌ Error:"
        · simp [he, modelSections]
        · simp [he, modelSections, sectionTag]
    · cases h
      simp [modelSections]

theorem renderMsgs_sections {j : Nat} {msgs : List Message} {body : List DocElem}
    (h : renderMsgs j msgs = some body) : modelSections body = [] := by
  induction msgs generalizing j body with
  | nil =>
    unfold renderMsgs at h
    cases h
    simp [modelSections]
  | cons m rest ih =>
    unfold renderMsgs at h
    cases ht : renderTurn j m with
    | none => rw [ht] at h; cases h
    | some es =>
      rw [ht] at h
      cases hr : renderMsgs (j + 1) rest with
      | none => rw [hr] at h; simp at h
      | some tail =>
        rw [hr] at h
        simp only [Option.some.injEq] at h
        subst h
        rw [modelSections_append, modelSections_append,
          renderTurn_sections ht, ih hr]
        simp [modelSections, sectionTag]

theorem renderTurn_labels {j : Nat} {m : Message} {es : List DocElem}
    (h : renderTurn j m = some es) :
    turnHeadings es =
      (if m.role == "user" then
         [if j == 0 then "Original Request" else "Follow-up Question"]
       else if m.role == "assistant" && !(errMarked m.content) then ["Response"]
       else []) := by
  unfold renderTurn at h
  split at h
  · rename_i hu
    cases h
    simp [turnHeadings, turnTag, hu]
  · rename_i hu
    split at h
    · rename_i ha
      cases hc : m.content with
      | none => rw [hc] at h; cases h
      | some c =>
        rw [hc] at h
        cases h
        by_cases he : pyStartsWith c "❌ Error:"
        · simp [he, turnHeadings, turnTag, hu, ha, errMarked, hc]
        · simp [he, turnHeadings, turnTag, hu, ha, errMarked, hc]
    · rename_i ha
      cases h
      simp [turnHeadings, turnTag, hu, ha]

theorem labelsSpec_cons (j : Nat) (m : Message) (rest : List Message) :
    labelsSpec j (m :: rest) =
      (if m.role == "user" then
         [if j == 0 then "Original Request" else "Follow-up Question"]
       else if m.role == "assistant" && !(errMarked m.content) then ["Response"]
       else []) ++ labelsSpec (j + 1) rest := rfl

theorem renderMsgs_labels {j : Nat} {msgs : List Message} {body : List DocElem}
    (h : renderMsgs j msgs = some body) : turnHeadings body = labelsSpec j msgs := by
  induction msgs generalizing j body with
  | nil =>
    unfold renderMsgs at h
    cases h
    simp [turnHeadings, labelsSpec]
  | cons m rest ih =>
    unfold renderMsgs at h
    cases ht : renderTurn j m with
    | none => rw [ht] at h; cases h
    | some es =>
      rw [ht] at h
      cases hr : renderMsgs (j + 1) rest with
      | none => rw [hr] at h; simp at h
      | some tail =>
        rw [hr] at h
        simp only [Option.some.injEq] at h
        subst h
        rw [turnHeadings_append, turnHeadings_append, ih hr,
          renderTurn_labels ht, labelsSpec_cons]
        simp [turnHeadings, turnTag]

theorem renderMsgs_total {msgs : List Message}
    (h : ∀ m ∈ msgs, m.role = "assistant" → m.content.isSome = true) :
    ∀ j, ∃ body, renderMsgs j msgs = some body := by
  induction msgs with
  | nil => intro j; exact ⟨[], rfl⟩
  | cons m rest ih =>
    intro j
    have hrest := ih (fun x hx => h x (List.mem_cons_of_mem _ hx))
    obtain ⟨tail, htail⟩ := hrest (j + 1)
    have hturn : ∃ es, renderTurn j m = some es := by
      unfold renderTurn
      split
      · exact ⟨_, rfl⟩
      · split
        · rename_i ha
          cases hc : m.content with
          | none =>
            have := h m (List.mem_cons_self _ _) (by simpa using ha)
            rw [hc] at this
            simp at this
          | some c => exact ⟨_, rfl⟩
        · exact ⟨_, rfl⟩
    obtain ⟨es, hes⟩ := hturn
    refine ⟨es ++ [DocElem.para ""] ++ tail, ?_⟩
    unfold renderMsgs
    rw [hes, htail]

/-- Well-formedness of a stored history for export purposes: every
assistant turn of every stored session has text content. -/
def exportWF (hist : SessionMap) : Prop :=
  ∀ e ∈ hist, ∀ m ∈ e.2.messages, m.role = "assistant" → m.content.isSome = true

instance (hist : SessionMap) : Decidable (exportWF hist) := by
  unfold exportWF
  infer_instance

theorem renderSections_spec {hist : SessionMap} (hwf : exportWF hist) :
    ∀ sel : List String, ∃ d, renderSections hist sel = some d ∧
      modelSections d =
        (sel.filter (fun x => (dictGet hist x).isSome)).map
          (fun x => "Conversation with " ++ x) := by
  intro sel
  induction sel with
  | nil => exact ⟨[], rfl, rfl⟩
  | cons model rest ih =>
    obtain ⟨tail, htail, hms⟩ := ih
    cases hg : dictGet hist model with
    | none =>
      refine ⟨tail, ?_, ?_⟩
      · simp only [renderSections, hg, htail]
      · rw [hms]
        simp [hg]
    | some sess =>
      have hmem := dictGet_mem hg
      have hws : ∀ m ∈ sess.messages, m.role = "assistant" →
          m.content.isSome = true := fun m hm => hwf _ hmem m hm
      obtain ⟨body, hbody⟩ := renderMsgs_total hws 0
      refine ⟨(DocElem.heading ("Conversation with " ++ model) 1 :: body) ++ tail,
        ?_, ?_⟩
      · simp only [renderSections, hg, hbody, htail]
      · rw [modelSections_append]
        have hhd : modelSections
            (DocElem.heading ("Conversation with " ++ model) 1 :: body) =
            ("Conversation with " ++ model) :: modelSections body := by
          have hsw : startsWithList ("Conversation with " ++ model).data
              ("Conversation with ").data = true :=
            pyStartsWith_append "Conversation with " model
          simp only [modelSections, List.flatMap_cons, sectionTag, hsw]
          simp
        rw [hhd, renderMsgs_sections hbody, hms]
        simp [hg]

theorem docHeader_sections (n p m : String) :
    modelSections (docHeader n p m) = [] := by
  have h1 : startsWithList ("AI Manuscript Editor - Full Conversation").data
      ("Conversation with ").data = false := by decide
  have h2 : startsWithList ("Original Manuscript Excerpt").data
      ("Conversation with ").data = false := by decide
  simp [docHeader, modelSections, sectionTag, pyStartsWith, h1, h2]

theorem renderSections_congr {h1 h2 : SessionMap} :
    ∀ sel : List String, (∀ x ∈ sel, dictGet h1 x = dictGet h2 x) →
      renderSections h1 sel = renderSections h2 sel := by
  intro sel
  induction sel with
  | nil => intro _; rfl
  | cons model rest ih =>
    intro hagree
    have hm := hagree model (List.mem_cons_self _ _)
    have hr := ih (fun x hx => hagree x (List.mem_cons_of_mem _ hx))
    unfold renderSections
    rw [hm, hr]

/-! ### Adapter result taxonomy -/

theorem errorMarker_starts (e : String) :
    pyStartsWith ("❌ Error: " ++ e) "❌ Error:" = true := by
  show startsWithList ("❌ Error: " ++ e).data ("❌ Error:").data = true
  have hd : ("❌ Error: " ++ e).data = ("❌ Error: ").data ++ e.data := rfl
  have h2 : ("❌ Error: ").data = ("❌ Error:").data ++ [' '] := by decide
  rw [hd, h2, List.append_assoc]
  exact startsWithList_append _ _

theorem adapterRequest_known {model : String} (messages : List Message)
    (sp : String) (h : model ∈ openai_models ∨ model ∈ anthropic_models) :
    ∃ req, adapterRequest model messages sp = some req := by
  unfold adapterRequest
  rcases h with h | h
  · have hc : openai_models.contains model = true := by simpa using h
    rw [hc]
    exact ⟨_, rfl⟩
  · have hc : anthropic_models.contains model = true := by simpa using h
    rw [hc]
    by_cases ho : openai_models.contains model
    · rw [if_pos ho]
      exact ⟨_, rfl⟩
    · rw [if_neg ho]
      exact ⟨_, rfl⟩

theorem adapter_known_total (env : ApiRequest → ProviderResult)
    (model : String) (messages : List Message) (sp : String)
    (h : model ∈ openai_models ∨ model ∈ anthropic_models) :
    ∃ s, get_ai_response env model messages sp = some s ∧
      ((∃ req raw, adapterRequest model messages sp = some req ∧
          env req = ProviderResult.ok raw ∧ s = pyStrip raw) ∨
        pyStartsWith s "❌ Error:" = true) := by
  obtain ⟨req, hreq⟩ := adapterRequest_known messages sp h
  cases henv : env req with
  | ok raw =>
    refine ⟨pyStrip raw, ?_, Or.inl ⟨req, raw, hreq, henv, rfl⟩⟩
    unfold get_ai_response
    rw [hreq]
    dsimp only
    rw [henv]
  | exn e =>
    refine ⟨"❌ Error: " ++ e, ?_, Or.inr (errorMarker_starts e)⟩
    unfold get_ai_response
    rw [hreq]
    dsimp only
    rw [henv]

/-! ### Claim theorems -/

/-- Claim C3: for every configured backend identifier (a member of one of
the two provider model lists) and every behavior of the underlying
provider call — including raised exceptions — `get_ai_response` raises
nothing to its caller: it returns a value, and that value is either the
provider's text (stripped) or an error string carrying the fixed
`"❌ Error:"` marker. -/
theorem claim_C3_adapter_never_raises (env : ApiRequest → ProviderResult)
    (model : String) (messages : List Message) (sp : String)
    (h : model ∈ openai_models ∨ model ∈ anthropic_models) :
    ∃ s, get_ai_response env model messages sp = some s ∧
      ((∃ req raw, adapterRequest model messages sp = some req ∧
          env req = ProviderResult.ok raw ∧ s = pyStrip raw) ∨
        pyStartsWith s "❌ Error:" = true) :=
  adapter_known_total env model messages sp h

/-- Witness for C3: a `gpt-4o` call under an environment that raises. -/
theorem claim_C3_witness :
    ∃ s, get_ai_response envBoom "gpt-4o" [] "S" = some s ∧
      ((∃ req raw, adapterRequest "gpt-4o" [] "S" = some req ∧
          envBoom req = ProviderResult.ok raw ∧ s = pyStrip raw) ∨
        pyStartsWith s "❌ Error:" = true) :=
  claim_C3_adapter_never_raises envBoom "gpt-4o" [] "S" (Or.inl (by decide))

/-- Claim C10: for a model identifier in neither provider list the adapter
returns `None` — neither a text nor an error-marked string — and the
StartSession handler stores that `None` as the assistant turn's content. -/
theorem claim_C10_unknown_model (env : ApiRequest → ProviderResult)
    (messages : List Message) (sp : String) (model m p n : String)
    (s : SessionMap)
    (h1 : model ∉ openai_models) (h2 : model ∉ anthropic_models)
    (hm : m ≠ "") (hp : p ≠ "") :
    get_ai_response env model messages sp = none ∧
    dictGet (runButtonHandler env m p n [model] s) model =
      some (BackendSession.mk
        [Message.mk "user" (some (initialMessage m p)),
         Message.mk "assistant" none] (systemPromptFor n)) := by
  have hc1 : openai_models.contains model = false := by simpa using h1
  have hc2 : anthropic_models.contains model = false := by simpa using h2
  have hnone : ∀ msgs sp', get_ai_response env model msgs sp' = none := by
    intro msgs sp'
    unfold get_ai_response adapterRequest
    rw [hc1, hc2]
    rfl
  refine ⟨hnone messages sp, ?_⟩
  unfold runButtonHandler
  rw [if_neg (by tauto), startLoop_get,
    if_pos (List.mem_singleton.mpr rfl)]
  unfold startSessionFor
  rw [hnone]

/-- Witness for C10: the identifier `gpt-5` is configured for neither
provider. -/
theorem claim_C10_witness :
    get_ai_response envOk "gpt-5" [] "S" = none ∧
    dictGet (runButtonHandler envOk "M" "P" "N" ["gpt-5"] []) "gpt-5" =
      some (BackendSession.mk
        [Message.mk "user" (some (initialMessage "M" "P")),
         Message.mk "assistant" none] (systemPromptFor "N")) :=
  claim_C10_unknown_model envOk [] "S" "gpt-5" "M" "P" "N" []
    (by decide) (by decide) (by decide) (by decide)

/-- Claim C1: for every non-empty list of selected backend identifiers
(drawn from the configured model lists) and non-empty inputs, the
run-button handler produces exactly one stored session per identifier —
none for any other identifier — and each stored session holds exactly two
turns: the user turn with the fixed `Manuscript/Feedback Request` layout,
then one assistant turn whose content is a text (stripped provider text or
error-marked string). -/
theorem claim_C1_start_session (env : ApiRequest → ProviderResult)
    (m p n : String) (ids : List String) (s : SessionMap)
    (hne : ids ≠ [])
    (hknown : ∀ b ∈ ids, b ∈ openai_models ∨ b ∈ anthropic_models)
    (hm : m ≠ "") (hp : p ≠ "") :
    (∀ b ∈ ids, ∃ t : String,
       dictGet (runButtonHandler env m p n ids s) b =
         some (BackendSession.mk
           [Message.mk "user" (some (initialMessage m p)),
            Message.mk "assistant" (some t)] (systemPromptFor n)) ∧
       ((∃ req raw, adapterRequest b
             [Message.mk "user" (some (initialMessage m p))]
             (systemPromptFor n) = some req ∧
           env req = ProviderResult.ok raw ∧ t = pyStrip raw) ∨
         pyStartsWith t "❌ Error:" = true)) ∧
    (∀ b, b ∉ ids → dictGet (runButtonHandler env m p n ids s) b = none) := by
  have hrun : ∀ b, dictGet (runButtonHandler env m p n ids s) b =
      if b ∈ ids then some (startSessionFor env (systemPromptFor n)
        (initialMessage m p) b) else none := by
    intro b
    unfold runButtonHandler
    rw [if_neg (by tauto), startLoop_get]
    rfl
  constructor
  · intro b hb
    obtain ⟨t, ht, hcase⟩ := adapter_known_total env b
      [Message.mk "user" (some (initialMessage m p))] (systemPromptFor n)
      (hknown b hb)
    refine ⟨t, ?_, hcase⟩
    rw [hrun b, if_pos hb]
    unfold startSessionFor
    rw [ht]
  · intro b hb
    rw [hrun b, if_neg hb]

/-- Witness for C1: one selected backend, an all-successful provider. -/
theorem claim_C1_witness :
    (∃ t : String,
       dictGet (runButtonHandler envOk "M" "P" "N" ["gpt-4o"] []) "gpt-4o" =
         some (BackendSession.mk
           [Message.mk "user" (some (initialMessage "M" "P")),
            Message.mk "assistant" (some t)] (systemPromptFor "N")) ∧
       ((∃ req raw, adapterRequest "gpt-4o"
             [Message.mk "user" (some (initialMessage "M" "P"))]
             (systemPromptFor "N") = some req ∧
           envOk req = ProviderResult.ok raw ∧ t = pyStrip raw) ∨
         pyStartsWith t "❌ Error:" = true)) ∧
    dictGet (runButtonHandler envOk "M" "P" "N" ["gpt-4o"] []) "claude-sonnet-4-20250514" = none :=
  ⟨(claim_C1_start_session envOk "M" "P" "N" ["gpt-4o"] [] (by decide)
      (by decide) (by decide) (by decide)).1 "gpt-4o" (by decide),
   (claim_C1_start_session envOk "M" "P" "N" ["gpt-4o"] [] (by decide)
      (by decide) (by decide) (by decide)).2 "claude-sonnet-4-20250514" (by decide)⟩

/-- Claim C9: with valid inputs, the run-button handler discards the prior
history entirely before contacting any backend: its result does not depend
on the prior state at all, and no identifier outside the new selection
remains in the result. -/
theorem claim_C9_full_reset (env : ApiRequest → ProviderResult)
    (m p n : String) (ids : List String) (s s' : SessionMap)
    (hm : m ≠ "") (hp : p ≠ "") :
    runButtonHandler env m p n ids s = runButtonHandler env m p n ids s' ∧
    ∀ k, k ∉ ids → dictGet (runButtonHandler env m p n ids s) k = none := by
  constructor
  · unfold runButtonHandler
    rw [if_neg (by tauto), if_neg (by tauto)]
  · intro k hk
    unfold runButtonHandler
    rw [if_neg (by tauto), startLoop_get, if_neg hk]
    rfl

/-- Witness for C9: a stale session under key `zzz` does not survive. -/
theorem claim_C9_witness :
    runButtonHandler envOk "M" "P" "N" ["gpt-4o"] [("zzz", sessOk)] =
      runButtonHandler envOk "M" "P" "N" ["gpt-4o"] [] ∧
    dictGet (runButtonHandler envOk "M" "P" "N" ["gpt-4o"] [("zzz", sessOk)]) "zzz" = none :=
  ⟨(claim_C9_full_reset envOk "M" "P" "N" ["gpt-4o"] [("zzz", sessOk)] []
      (by decide) (by decide)).1,
   (claim_C9_full_reset envOk "M" "P" "N" ["gpt-4o"] [("zzz", sessOk)] []
      (by decide) (by decide)).2 "zzz" (by decide)⟩

/-- Claim C8: the adapter routes by identifier to exactly one of the two
conventions.  For an OpenAI-list model the issued request is the whole
message list with one prepended system entry and temperature `0.7`; for an
Anthropic-list model the system instruction travels as a separate
parameter with only non-system messages, `max_tokens = 4096`, and
temperature `0.7`; in both conventions a returned text is stripped of
surrounding whitespace. -/
theorem claim_C8_routing (env : ApiRequest → ProviderResult) (model : String)
    (messages : List Message) (sp t : String) :
    (model ∈ openai_models →
      adapterRequest model messages sp =
        some (ApiRequest.openaiReq model
          (Message.mk "system" (some sp) :: messages) (7/10)) ∧
      (env (ApiRequest.openaiReq model
          (Message.mk "system" (some sp) :: messages) (7/10)) =
            ProviderResult.ok t →
        get_ai_response env model messages sp = some (pyStrip t))) ∧
    (model ∈ anthropic_models →
      adapterRequest model messages sp =
        some (ApiRequest.anthropicReq model 4096 (7/10) sp
          (messages.filter (fun x => x.role != "system"))) ∧
      (env (ApiRequest.anthropicReq model 4096 (7/10) sp
          (messages.filter (fun x => x.role != "system"))) =
            ProviderResult.ok t →
        get_ai_response env model messages sp = some (pyStrip t))) := by
  constructor
  · intro h
    have hc : openai_models.contains model = true := by simpa using h
    have hreq : adapterRequest model messages sp =
        some (ApiRequest.openaiReq model
          (Message.mk "system" (some sp) :: messages) (7/10)) := by
      unfold adapterRequest
      rw [hc]
      rfl
    refine ⟨hreq, fun henv => ?_⟩
    unfold get_ai_response
    rw [hreq]
    dsimp only
    rw [henv]
  · intro h
    have hmod : model = "claude-sonnet-4-20250514" := by
      simpa [anthropic_models] using h
    subst hmod
    have hc1 : openai_models.contains "claude-sonnet-4-20250514" = false := by
      decide
    have hc2 : anthropic_models.contains "claude-sonnet-4-20250514" = true := by
      decide
    have hreq : adapterRequest "claude-sonnet-4-20250514" messages sp =
        some (ApiRequest.anthropicReq "claude-sonnet-4-20250514" 4096 (7/10) sp
          (messages.filter (fun x => x.role != "system"))) := by
      unfold adapterRequest
      rw [hc1, hc2]
      rfl
    refine ⟨hreq, fun henv => ?_⟩
    unfold get_ai_response
    rw [hreq]
    dsimp only
    rw [henv]

/-- Witness for C8: both conventions exercised under an environment whose
text carries surrounding whitespace. -/
theorem claim_C8_witness :
    (adapterRequest "gpt-4o" [] "S" =
       some (ApiRequest.openaiReq "gpt-4o"
         [Message.mk "system" (some "S")] (7/10)) ∧
     get_ai_response envPad "gpt-4o" [] "S" = some (pyStrip " hi ")) ∧
    (adapterRequest "claude-sonnet-4-20250514" [] "S" =
       some (ApiRequest.anthropicReq "claude-sonnet-4-20250514" 4096 (7/10)
         "S" []) ∧
     get_ai_response envPad "claude-sonnet-4-20250514" [] "S" =
       some (pyStrip " hi ")) :=
  ⟨⟨((claim_C8_routing envPad "gpt-4o" [] "S" " hi ").1 (by decide)).1,
    ((claim_C8_routing envPad "gpt-4o" [] "S" " hi ").1 (by decide)).2 rfl⟩,
   ⟨((claim_C8_routing envPad "claude-sonnet-4-20250514" [] "S" " hi ").2
       (by decide)).1,
    ((claim_C8_routing envPad "claude-sonnet-4-20250514" [] "S" " hi ").2
       (by decide)).2 rfl⟩⟩

/-- Claim C7: operations on one backend never touch another backend's
session.  First, the stored session of backend `y` after a StartSession
run is unchanged between any two provider environments that agree on every
request addressed to a model other than `x` — in particular a failure of
`x`'s call cannot alter `y`'s turns.  Second, a follow-up Send addressed
to `x` leaves every other backend's stored session exactly as it was. -/
theorem claim_C7_frame (env env1 env2 : ApiRequest → ProviderResult)
    (m p n x y fu : String) (ids : List String) (s : SessionMap)
    (hxy : y ≠ x) :
    ((∀ r, reqModel r ≠ x → env1 r = env2 r) →
      dictGet (runButtonHandler env1 m p n ids s) y =
        dictGet (runButtonHandler env2 m p n ids s) y) ∧
    dictGet (sendHandlerState env s x fu) y = dictGet s y := by
  constructor
  · intro hagree
    unfold runButtonHandler
    by_cases hv : m = "" ∨ p = ""
    · rw [if_pos hv, if_pos hv]
    · rw [if_neg hv, if_neg hv, startLoop_get, startLoop_get]
      by_cases hy : y ∈ ids
      · rw [if_pos hy, if_pos hy]
        have hresp : get_ai_response env1 y
            [Message.mk "user" (some (initialMessage m p))] (systemPromptFor n) =
            get_ai_response env2 y
            [Message.mk "user" (some (initialMessage m p))] (systemPromptFor n) :=
          get_ai_response_congr _ _
            (fun r hr => hagree r (by rw [hr]; exact hxy))
        unfold startSessionFor
        rw [hresp]
      · rw [if_neg hy, if_neg hy]
  · unfold sendHandlerState sendHandler
    by_cases he : pyStrip fu = ""
    · rw [if_pos he]
    · rw [if_neg he]
      cases hg : dictGet s x with
      | none => rfl
      | some sess =>
        exact dictGet_dictSet_ne _ _ _ _ (fun hc => hxy hc.symm)

/-- Witness for C7: making `gpt-4o` fail does not change `gpt-4.1`'s
session, and a follow-up to `gpt-4o` leaves the stored Anthropic session
untouched. -/
theorem claim_C7_witness :
    dictGet (runButtonHandler envOk "M" "P" "N" ["gpt-4o", "gpt-4.1"] []) "gpt-4.1" =
      dictGet (runButtonHandler envFailGpt4o "M" "P" "N" ["gpt-4o", "gpt-4.1"] []) "gpt-4.1" ∧
    dictGet (sendHandlerState envOk histCE "gpt-4o" "more") "claude-sonnet-4-20250514" =
      dictGet histCE "claude-sonnet-4-20250514" :=
  ⟨(claim_C7_frame envOk envOk envFailGpt4o "M" "P" "N" "gpt-4o" "gpt-4.1"
      "more" ["gpt-4o", "gpt-4.1"] [] (by decide)).1
      (fun r h => by
        have hb : (reqModel r == "gpt-4o") = false := beq_eq_false_iff_ne.mpr h
        simp [envOk, envFailGpt4o, hb]),
   (claim_C7_frame envOk envOk envFailGpt4o "M" "P" "N" "gpt-4o"
      "claude-sonnet-4-20250514" "more" ["gpt-4o", "gpt-4.1"] histCE
      (by decide)).2⟩

/-- Claim C4: the follow-up Send handler rejects, before any state
mutation, both an empty (or whitespace-only) follow-up and a backend
identifier with no stored session; in both cases an error is reported and
the session history is left entirely unchanged. -/
theorem claim_C4_invalid_follow_up (env : ApiRequest → ProviderResult)
    (hist : SessionMap) (model fu : String) :
    (pyStrip fu = "" →
      sendHandler env hist model fu =
        Except.error FollowUpError.emptyFollowUp ∧
      sendHandlerState env hist model fu = hist) ∧
    (dictGet hist model = none →
      (∃ e, sendHandler env hist model fu = Except.error e) ∧
      sendHandlerState env hist model fu = hist) := by
  constructor
  · intro he
    have h1 : sendHandler env hist model fu =
        Except.error FollowUpError.emptyFollowUp := by
      unfold sendHandler
      rw [if_pos he]
    refine ⟨h1, ?_⟩
    unfold sendHandlerState
    rw [h1]
  · intro hg
    by_cases he : pyStrip fu = ""
    · have h1 : sendHandler env hist model fu =
          Except.error FollowUpError.emptyFollowUp := by
        unfold sendHandler
        rw [if_pos he]
      refine ⟨⟨_, h1⟩, ?_⟩
      unfold sendHandlerState
      rw [h1]
    · have h1 : sendHandler env hist model fu =
          Except.error FollowUpError.unknownBackend := by
        unfold sendHandler
        rw [if_neg he, hg]
      refine ⟨⟨_, h1⟩, ?_⟩
      unfold sendHandlerState
      rw [h1]

/-- Witness for C4: an empty follow-up, and a backend with no session. -/
theorem claim_C4_witness :
    (sendHandler envOk [] "gpt-4o" "" =
       Except.error FollowUpError.emptyFollowUp ∧
     sendHandlerState envOk [] "gpt-4o" "" = []) ∧
    ((∃ e, sendHandler envOk [] "gpt-4o" "hi" = Except.error e) ∧
     sendHandlerState envOk [] "gpt-4o" "hi" = []) :=
  ⟨(claim_C4_invalid_follow_up envOk [] "gpt-4o" "").1 (by decide),
   (claim_C4_invalid_follow_up envOk [] "gpt-4o" "hi").2 (by decide)⟩

/-- Claim C2: in every session history reachable through the app's
handlers, every stored backend session's turn roles strictly alternate
starting with `user`. -/
theorem claim_C2_alternation {s : SessionMap} (hs : Reachable s)
    (model : String) (sess : BackendSession)
    (hget : dictGet s model = some sess) :
    altFrom "user" sess.messages = true :=
  (reachable_inv hs model sess hget).1

set_option maxRecDepth 8192 in
/-- Witness for C2: the session stored for `gpt-4o` after one StartSession
followed by one follow-up Send alternates user/assistant. -/
theorem claim_C2_witness :
    altFrom "user"
      [Message.mk "user" (some (initialMessage "M" "P")),
       Message.mk "assistant" (some "Fine."),
       Message.mk "user" (some "more"),
       Message.mk "assistant" (some "Fine.")] = true :=
  claim_C2_alternation
    (Reachable.followUp envOk "gpt-4o" "more" _
      (Reachable.start envOk "M" "P" "N" ["gpt-4o"] [] Reachable.empty))
    "gpt-4o"
    (BackendSession.mk
      [Message.mk "user" (some (initialMessage "M" "P")),
       Message.mk "assistant" (some "Fine."),
       Message.mk "user" (some "more"),
       Message.mk "assistant" (some "Fine.")] (systemPromptFor "N"))
    (by decide)

/-- Counterexample to C5 as stated: the export is not determined by
manuscript text, feedback prompt, persona and session history alone — it
also reads the currently selected model list.  With all four claimed
inputs fixed, two invocations differing only in the selection produce
different documents. -/
theorem claim_C5_cex :
    exportDoc "Nan Graham" "pacing?" "Chapter" ["gpt-4o", "claude-sonnet-4-20250514"] histCE ≠
      exportDoc "Nan Graham" "pacing?" "Chapter" ["gpt-4o"] histCE := by
  decide

/-- Claim C5 (amended): the export is a pure, deterministic function of
manuscript text, feedback prompt, persona, the current selection list,
and the session history — and of the history only through the entries of
the selected backends, so two invocations on histories agreeing there
yield identical documents. -/
theorem claim_C5_render_pure (n p m : String) (sel : List String)
    (h1 h2 : SessionMap)
    (hagree : ∀ x ∈ sel, dictGet h1 x = dictGet h2 x) :
    exportDoc n p m sel h1 = exportDoc n p m sel h2 := by
  unfold exportDoc
  rw [renderSections_congr sel hagree]

/-- Witness for C5 (amended): two histories agreeing on the selected
backend render identically even though they differ elsewhere. -/
theorem claim_C5_witness :
    exportDoc "Nan Graham" "pacing?" "Chapter" ["gpt-4o"] histCE =
      exportDoc "Nan Graham" "pacing?" "Chapter" ["gpt-4o"] [("gpt-4o", sessErr)] :=
  claim_C5_render_pure "Nan Graham" "pacing?" "Chapter" ["gpt-4o"] histCE
    [("gpt-4o", sessErr)] (by decide)

/-- Counterexample to C6 as stated: with `claude-sonnet-4-20250514` stored
in the session history but deselected, the export has a section only for
`gpt-4o` — not one per backend present in SessionState — and `gpt-4o`'s
error-marked assistant turn receives no `Response` label at all (it is
omitted). -/
theorem claim_C6_cex :
    (exportDoc "Nan Graham" "pacing?" "Chapter" ["gpt-4o"] histCE).map modelSections =
      some ["Conversation with gpt-4o"] ∧
    (dictGet histCE "claude-sonnet-4-20250514").isSome = true ∧
    (dictGet histCE "gpt-4o").isSome = true ∧
    DocElem.heading "Response" 2 ∉
      (exportDoc "Nan Graham" "pacing?" "Chapter" ["gpt-4o"] histCE).getD [] := by
  decide

/-- Claim C6 (amended): the export contains exactly one section per
backend that is both currently selected and present in the session
history, in selection-list order; within a backend's transcript the turn
labels are `Original Request` for the user turn at position 0, `Follow-up
Question` for later user turns, and `Response` for assistant turns without
the error marker — error-marked assistant turns are omitted, not
labeled. -/
theorem claim_C6_sections_labels (n p m : String) (sel : List String)
    (hist : SessionMap) (hwf : exportWF hist) :
    (∃ d, exportDoc n p m sel hist = some d ∧
       modelSections d =
         (sel.filter (fun x => (dictGet hist x).isSome)).map
           (fun x => "Conversation with " ++ x)) ∧
    (∀ model sess, dictGet hist model = some sess →
       ∃ body, renderMsgs 0 sess.messages = some body ∧
         turnHeadings body = labelsSpec 0 sess.messages) := by
  constructor
  · obtain ⟨d, hd, hms⟩ := renderSections_spec hwf sel
    refine ⟨docHeader n p m ++ d, ?_, ?_⟩
    · unfold exportDoc
      rw [hd]
    · rw [modelSections_append, docHeader_sections, hms]
      rfl
  · intro model sess hg
    have hws : ∀ x ∈ sess.messages, x.role = "assistant" →
        x.content.isSome = true := fun x hx => hwf _ (dictGet_mem hg) x hx
    obtain ⟨body, hbody⟩ := renderMsgs_total hws 0
    exact ⟨body, hbody, renderMsgs_labels hbody⟩

/-- Witness for C6 (amended): the two-backend fixture history. -/
theorem claim_C6_witness :
    (∃ d, exportDoc "Nan Graham" "pacing?" "Chapter"
        ["gpt-4o", "claude-sonnet-4-20250514"] histCE = some d ∧
       modelSections d =
         ((["gpt-4o", "claude-sonnet-4-20250514"].filter
             (fun x => (dictGet histCE x).isSome)).map
           (fun x => "Conversation with " ++ x))) ∧
    (∃ body, renderMsgs 0 sessOk.messages = some body ∧
       turnHeadings body = labelsSpec 0 sessOk.messages) :=
  ⟨(claim_C6_sections_labels "Nan Graham" "pacing?" "Chapter"
      ["gpt-4o", "claude-sonnet-4-20250514"] histCE (by decide)).1,
   (claim_C6_sections_labels "Nan Graham" "pacing?" "Chapter"
      ["gpt-4o", "claude-sonnet-4-20250514"] histCE (by decide)).2
      "claude-sonnet-4-20250514" sessOk (by decide)⟩
